import Mathlib

/-!
Verification of the chemical-compatibility decision engine and the
container / deletion-request approval state machine of the backend
(`src/backend/main.py`).

The compatibility engine (`calculate_hazard_status`, main.py lines 247-408)
is a pure function; it is embedded below with real distances modelled as
rationals (`ℚ`), so that the 60% threshold `min_distance * 0.6` is exact.
Python's `float('inf')` sentinel is modelled by the dedicated constructor
`MinDist.inf`.  Python string ordering (`sorted`) and `str.strip()` are
embedded as structural recursion over the underlying character lists,
matching CPython's code-point semantics on the ASCII data used here.

The workflow endpoints (`submit_container`, `admin_review_container`,
`approve_container`, `request_rework`, `hod_final_decision`) validate
their inputs and the current status before issuing a single UPDATE/DELETE;
every failure path raises before any write.  They are embedded as
functions returning `Except String α`: an `error` result models an
HTTPException raised before the database write, so the stored state is
unchanged in that case.
-/

namespace ChemSafety

/-- The five actions of the compatibility matrix (main.py lines 254-343). -/
inductive Action where
  | OK_TOGETHER
  | SEGREGATE_3M
  | SEGREGATE_5M
  | ISOLATE
  | MAY_NOT_COMPATIBLE
deriving DecidableEq, Repr

/-- A minimum required distance: either a finite number of meters or the
Python `float('inf')` sentinel used for `ISOLATE` pairs. -/
inductive MinDist where
  | fin (q : ℚ)
  | inf
deriving DecidableEq, Repr

/-- Lexicographic comparison of character lists by code point, embedding
CPython's `<` on strings (used by `sorted` in main.py line 365). -/
def char_list_lt : List Char → List Char → Bool
  | _, [] => false
  | [], _ :: _ => true
  | a :: as, b :: bs =>
    if a < b then true
    else if b < a then false
    else char_list_lt as bs

/-- Python string comparison `a < b`. -/
def py_lt (a b : String) : Bool := char_list_lt a.data b.data

/-- Python `tuple(sorted([a, b]))` for two strings (main.py line 365). -/
def sorted_pair (a b : String) : String × String :=
  if py_lt b a then (b, a) else (a, b)

/-- Characters removed by `str.strip()`; the comments and reasons in this
system are ASCII, where Python's whitespace set coincides with
`Char.isWhitespace`. -/
def strip_chars (l : List Char) : List Char :=
  ((l.dropWhile Char.isWhitespace).reverse.dropWhile Char.isWhitespace).reverse

/-- Python `s.strip()`. -/
def py_strip (s : String) : String := String.mk (strip_chars s.data)

/-- The static compatibility matrix of `calculate_hazard_status`
(main.py lines 255-343), keyed by the sorted pair of class codes. -/
def compatibility_matrix : List ((String × String) × (Action × MinDist)) :=
  [ (("2.1", "2.1"), (Action.OK_TOGETHER, MinDist.fin 0)),
    (("2.1", "2.2"), (Action.OK_TOGETHER, MinDist.fin 0)),
    (("2.1", "2.3"), (Action.SEGREGATE_3M, MinDist.fin 3)),
    (("2.1", "3"), (Action.SEGREGATE_5M, MinDist.fin 5)),
    (("2.1", "4.1"), (Action.SEGREGATE_5M, MinDist.fin 5)),
    (("2.1", "4.2"), (Action.SEGREGATE_5M, MinDist.fin 5)),
    (("2.1", "4.3"), (Action.SEGREGATE_5M, MinDist.fin 5)),
    (("2.1", "5.1"), (Action.SEGREGATE_3M, MinDist.fin 3)),
    (("2.1", "5.2"), (Action.ISOLATE, MinDist.inf)),
    (("2.1", "6"), (Action.SEGREGATE_3M, MinDist.fin 3)),
    (("2.1", "8"), (Action.SEGREGATE_5M, MinDist.fin 5)),
    (("2.2", "2.2"), (Action.OK_TOGETHER, MinDist.fin 0)),
    (("2.2", "2.3"), (Action.OK_TOGETHER, MinDist.fin 0)),
    (("2.2", "3"), (Action.SEGREGATE_5M, MinDist.fin 5)),
    (("2.2", "4.1"), (Action.SEGREGATE_5M, MinDist.fin 5)),
    (("2.2", "4.2"), (Action.SEGREGATE_5M, MinDist.fin 5)),
    (("2.2", "4.3"), (Action.SEGREGATE_5M, MinDist.fin 5)),
    (("2.2", "5.1"), (Action.SEGREGATE_3M, MinDist.fin 3)),
    (("2.2", "5.2"), (Action.ISOLATE, MinDist.inf)),
    (("2.2", "6"), (Action.SEGREGATE_3M, MinDist.fin 3)),
    (("2.2", "8"), (Action.SEGREGATE_5M, MinDist.fin 5)),
    (("2.3", "2.3"), (Action.MAY_NOT_COMPATIBLE, MinDist.fin 3)),
    (("2.3", "3"), (Action.SEGREGATE_5M, MinDist.fin 5)),
    (("2.3", "4.1"), (Action.SEGREGATE_5M, MinDist.fin 5)),
    (("2.3", "4.2"), (Action.SEGREGATE_5M, MinDist.fin 5)),
    (("2.3", "4.3"), (Action.SEGREGATE_5M, MinDist.fin 5)),
    (("2.3", "5.1"), (Action.SEGREGATE_3M, MinDist.fin 3)),
    (("2.3", "5.2"), (Action.ISOLATE, MinDist.inf)),
    (("2.3", "6"), (Action.SEGREGATE_3M, MinDist.fin 3)),
    (("2.3", "8"), (Action.SEGREGATE_5M, MinDist.fin 5)),
    (("3", "3"), (Action.OK_TOGETHER, MinDist.fin 0)),
    (("3", "4.1"), (Action.SEGREGATE_3M, MinDist.fin 3)),
    (("3", "4.2"), (Action.SEGREGATE_5M, MinDist.fin 5)),
    (("3", "4.3"), (Action.SEGREGATE_5M, MinDist.fin 5)),
    (("3", "5.1"), (Action.SEGREGATE_5M, MinDist.fin 5)),
    (("3", "5.2"), (Action.ISOLATE, MinDist.inf)),
    (("3", "6"), (Action.SEGREGATE_3M, MinDist.fin 3)),
    (("3", "8"), (Action.SEGREGATE_3M, MinDist.fin 3)),
    (("4.1", "4.1"), (Action.OK_TOGETHER, MinDist.fin 0)),
    (("4.1", "4.2"), (Action.SEGREGATE_3M, MinDist.fin 3)),
    (("4.1", "4.3"), (Action.SEGREGATE_5M, MinDist.fin 5)),
    (("4.1", "5.1"), (Action.SEGREGATE_3M, MinDist.fin 3)),
    (("4.1", "5.2"), (Action.ISOLATE, MinDist.inf)),
    (("4.1", "6"), (Action.SEGREGATE_3M, MinDist.fin 3)),
    (("4.1", "8"), (Action.MAY_NOT_COMPATIBLE, MinDist.fin 3)),
    (("4.2", "4.2"), (Action.OK_TOGETHER, MinDist.fin 0)),
    (("4.2", "4.3"), (Action.SEGREGATE_5M, MinDist.fin 5)),
    (("4.2", "5.1"), (Action.SEGREGATE_5M, MinDist.fin 5)),
    (("4.2", "5.2"), (Action.ISOLATE, MinDist.inf)),
    (("4.2", "6"), (Action.SEGREGATE_3M, MinDist.fin 3)),
    (("4.2", "8"), (Action.SEGREGATE_3M, MinDist.fin 3)),
    (("4.3", "4.3"), (Action.OK_TOGETHER, MinDist.fin 0)),
    (("4.3", "5.1"), (Action.SEGREGATE_5M, MinDist.fin 5)),
    (("4.3", "5.2"), (Action.ISOLATE, MinDist.inf)),
    (("4.3", "6"), (Action.SEGREGATE_3M, MinDist.fin 3)),
    (("4.3", "8"), (Action.SEGREGATE_5M, MinDist.fin 5)),
    (("5.1", "5.1"), (Action.MAY_NOT_COMPATIBLE, MinDist.fin 3)),
    (("5.1", "5.2"), (Action.ISOLATE, MinDist.inf)),
    (("5.1", "6"), (Action.SEGREGATE_3M, MinDist.fin 3)),
    (("5.1", "8"), (Action.SEGREGATE_3M, MinDist.fin 3)),
    (("5.2", "5.2"), (Action.OK_TOGETHER, MinDist.fin 0)),
    (("5.2", "6"), (Action.ISOLATE, MinDist.inf)),
    (("5.2", "8"), (Action.SEGREGATE_3M, MinDist.fin 3)),
    (("6", "6"), (Action.OK_TOGETHER, MinDist.fin 0)),
    (("6", "8"), (Action.SEGREGATE_5M, MinDist.fin 5)),
    (("8", "8"), (Action.MAY_NOT_COMPATIBLE, MinDist.fin 3)) ]

/-- The hazard-name to class-code map of `calculate_hazard_status`
(main.py lines 346-358). -/
def name_to_class : List (String × String) :=
  [ ("Flammable Gas", "2.1"),
    ("Non-Flammable Non-Toxic Gas", "2.2"),
    ("Toxic Gas", "2.3"),
    ("Flammable Liquid", "3"),
    ("Flammable Solid", "4.1"),
    ("Spontaneously Combustible", "4.2"),
    ("Dangerous When Wet", "4.3"),
    ("Oxidizing Agent", "5.1"),
    ("Organic Peroxide", "5.2"),
    ("Toxic", "6"),
    ("Corrosive", "8") ]

/-- Python `name_to_class.get(class_a, class_a)` (main.py lines 361-362):
a hazard name is translated to its class code, anything else passes
through unchanged. -/
def toClassCode (s : String) : String := (name_to_class.lookup s).getD s

/-- Python `compatibility_matrix.get(pair_key)` followed by the
`if not compatibility` default of `("SEGREGATE_3M", 3.0)`
(main.py lines 366-373). -/
def matrix_entry (key : String × String) : Action × MinDist :=
  (compatibility_matrix.lookup key).getD (Action.SEGREGATE_3M, MinDist.fin 3)

/-- The three-band distance check shared by the segregation actions
(main.py lines 391-396 and 403-408, two verbatim copies of the same
block): `safe` when `distance >= min_distance`, `caution` when
`distance >= min_distance * 0.6`, otherwise `danger`. -/
def seg_result (min_distance distance : ℚ) : String × Bool × MinDist :=
  if distance ≥ min_distance then ("safe", false, MinDist.fin min_distance)
  else if distance ≥ min_distance * (0.6 : ℚ) then ("caution", false, MinDist.fin min_distance)
  else ("danger", false, MinDist.fin min_distance)

/-- The compatibility engine (main.py lines 247-408).  The two
`let`-bound class codes of the source are inlined as `toClassCode`
applications; the `OK_TOGETHER` branch keeps the source's redundant
`if distance >= 0` whose two arms both return `safe` (lines 378-382). -/
def calculate_hazard_status (class_a class_b : String) (distance : ℚ) :
    String × Bool × MinDist :=
  match matrix_entry (sorted_pair (toClassCode class_a) (toClassCode class_b)) with
  | (Action.ISOLATE, min_distance) => ("danger", true, min_distance)
  | (Action.OK_TOGETHER, _) =>
      if distance ≥ 0 then ("safe", false, MinDist.fin 0)
      else ("safe", false, MinDist.fin 0)
  | (Action.MAY_NOT_COMPATIBLE, _) =>
      if toClassCode class_a = toClassCode class_b then ("safe", false, MinDist.fin 0)
      else seg_result 3 distance
  | (Action.SEGREGATE_3M, _) => seg_result 3 distance
  | (Action.SEGREGATE_5M, _) => seg_result 5 distance

/-- The persisted / API representation of the minimum distance:
`None if min_required_distance == float('inf') else min_required_distance`
(main.py lines 945, 1417 and 2054). -/
def min_dist_value (m : MinDist) : Option ℚ :=
  match m with
  | MinDist.inf => none
  | MinDist.fin q => some q

/-- The container-listing normalisation of a stored minimum distance:
`None` when the database cell is NULL or holds an infinity
(main.py lines 1072-1075 and 1592-1594). -/
def listing_min_dist (cell : Option MinDist) : Option MinDist :=
  if cell = none ∨ cell = some MinDist.inf then none else cell

/-- A container row (table `containers`), restricted to the columns the
workflow endpoints read or write. -/
structure Container where
  department : String
  location : String
  submitted_by : String
  container : String
  container_type : String
  status : String
  admin_review_comment : Option String
  approval_comment : Option String
  rework_reason : Option String
  rework_count : Nat
deriving DecidableEq, Repr

/-- `submit_container` (main.py lines 886-952): the INSERT at lines
904-909 always stores the literal status `'pending_review'`. -/
def submit_container (department location submitted_by container container_type : String) :
    Container :=
  { department := department, location := location, submitted_by := submitted_by,
    container := container, container_type := container_type,
    status := "pending_review", admin_review_comment := none,
    approval_comment := none, rework_reason := none, rework_count := 0 }

/-- `admin_review_container` (main.py lines 1808-1858): requires the
admin role, a non-blank comment of at least 10 characters after
stripping, and a container in `pending_review`; on success the UPDATE at
lines 1846-1858 moves the container to `pending`.  Every check raises
before the UPDATE, so an `error` result leaves the stored row unchanged. -/
def admin_review_container (role review_comment : String) (c : Container) :
    Except String Container :=
  if role ≠ "admin" then Except.error "Admin access required"
  else if review_comment = "" ∨ py_strip review_comment = "" then
    Except.error "Review comment is required"
  else if (py_strip review_comment).length < 10 then
    Except.error "Review comment must be at least 10 characters long"
  else if c.status ≠ "pending_review" then
    Except.error "Container cannot be reviewed in this status"
  else
    Except.ok { c with status := "pending",
                       admin_review_comment := some (py_strip review_comment) }

/-- `approve_container` (main.py lines 1629-1698): requires the hod role,
a non-blank comment of at least 10 characters after stripping, and a
container in `pending_review`, `pending` or `rework_requested`.  The
UPDATE at lines 1673-1677 stores `approval.status` verbatim — the request
field is documented as `'approved' or 'rejected'` (line 179) but never
validated. -/
def approve_container (role approval_status comment : String) (c : Container) :
    Except String Container :=
  if role ≠ "hod" then Except.error "Admin access required"
  else if comment = "" ∨ py_strip comment = "" then
    Except.error "Comment is required. Please provide a reason for approval or rejection."
  else if (py_strip comment).length < 10 then
    Except.error "Comment must be at least 10 characters long. Please provide a detailed reason."
  else if c.status ∉ (["pending_review", "pending", "rework_requested"] : List String) then
    Except.error "Cannot approve container in this status. Container may have already been processed."
  else
    Except.ok { c with status := approval_status,
                       approval_comment := some (py_strip comment) }

/-- `request_rework` (main.py lines 1707-1757): admin or hod only, admin
restricted to `pending_review`, hod to `pending_review` or `pending`; on
success the UPDATE at lines 1744-1757 stores `rework_requested`, the
stripped reason, and an incremented rework count.  The reason itself is
never validated (the `ReworkRequest` model at lines 133-135 is a bare
string). -/
def request_rework (role rework_reason : String) (c : Container) :
    Except String Container :=
  if role ∉ (["admin", "hod"] : List String) then
    Except.error "Admin or HOD access required"
  else if role = "admin" ∧ c.status ≠ "pending_review" then
    Except.error "Admin can only rework containers in pending_review status"
  else if role = "hod" ∧ c.status ∉ (["pending_review", "pending"] : List String) then
    Except.error "Container cannot be reworked in current status"
  else
    Except.ok { c with status := "rework_requested",
                       rework_reason := some (py_strip rework_reason),
                       rework_count := c.rework_count + 1 }

/-- The database state observed after an endpoint call: an `error`
result is an HTTPException raised before any UPDATE, so the stored row
is the original one. -/
def apply_result (c : Container) (r : Except String Container) : Container :=
  match r with
  | Except.ok c' => c'
  | Except.error _ => c

/-- A container together with its child rows (`container_hazards`,
`hazard_pairs`, `container_attachments`). -/
structure ContainerRecord where
  container : Container
  hazard_links : List Nat
  pair_assessments : List (Nat × Nat × ℚ)
  attachments : List String
deriving DecidableEq, Repr

/-- The state touched by the deletion-request workflow: the request's
status and admin-review flag, and the target container with its child
rows (`none` once deleted). -/
structure DeletionWorld where
  req_status : String
  admin_reviewed : Bool
  record : Option ContainerRecord
deriving DecidableEq, Repr

/-- Modelled from the spec: the live PostgreSQL schema declaring the ON
DELETE CASCADE foreign keys of `container_hazards`, `hazard_pairs` and
`container_attachments` is not part of the repository source (only a
superseded SQLite setup script is).  Per the source's own comment at
main.py line 2484 ("CASCADE will handle related records") and the spec
("approved triggers cascading deletion of the Container and all
dependent records"), deleting the container drops the whole record with
its child rows. -/
def cascade_delete_container (w : DeletionWorld) : DeletionWorld :=
  { w with record := none }

/-- `hod_final_decision` (main.py lines 2411-2516): hod only, comment of
at least 10 stripped characters, decision restricted to `approved` or
`rejected` (line 2435), request must be in `admin_reviewed` status with
the admin-review flag set (lines 2447-2457).  An approved decision
deletes the container row (line 2485), cascading to the child rows via
`cascade_delete_container`.  A rejected decision only updates the
request. -/
def hod_final_decision (role decision comment : String) (w : DeletionWorld) :
    Except String DeletionWorld :=
  if role ≠ "hod" then Except.error "HOD access required"
  else if comment = "" ∨ py_strip comment = "" then
    Except.error "HOD decision comment is required"
  else if (py_strip comment).length < 10 then
    Except.error "HOD decision comment must be at least 10 characters long"
  else if decision ∉ (["approved", "rejected"] : List String) then
    Except.error "Decision must be approved or rejected"
  else if w.req_status ≠ "admin_reviewed" then
    Except.error "This request must be reviewed by admin first"
  else if ¬ w.admin_reviewed then
    Except.error "Admin review is required before HOD decision"
  else if decision = "approved" then
    Except.ok (cascade_delete_container { w with req_status := decision })
  else
    Except.ok { w with req_status := decision }

/-- A sample freshly submitted container, used as concrete input. -/
def sample_pending_review : Container :=
  { department := "Processing", location := "Reagent Shed", submitted_by := "jdoe",
    container := "CT-100", container_type := "Tank", status := "pending_review",
    admin_review_comment := none, approval_comment := none,
    rework_reason := none, rework_count := 0 }

/-- The sample container after admin review, in status `pending`. -/
def sample_pending : Container :=
  { sample_pending_review with status := "pending" }

/-- A sample container record with child rows. -/
def sample_record : ContainerRecord :=
  { container := sample_pending, hazard_links := [1, 2],
    pair_assessments := [(1, 2, 2)], attachments := ["photo.jpg"] }

/-- A deletion request that has been admin reviewed, with its container. -/
def sample_deletion_world : DeletionWorld :=
  { req_status := "admin_reviewed", admin_reviewed := true,
    record := some sample_record }

/-- A deletion request still pending (no admin review yet). -/
def sample_deletion_pending : DeletionWorld :=
  { sample_deletion_world with req_status := "pending", admin_reviewed := false }

/-- The sample container after a successful admin review. -/
def sample_reviewed : Container :=
  { sample_pending_review with
    status := "pending"
    admin_review_comment := some "hazard details verified" }

/-- Two strings with the same character data are equal. -/
lemma str_data_eq {a b : String} (h : a.data = b.data) : a = b := by
  cases a
  cases b
  exact congrArg String.mk h

/-- The code-point comparison is asymmetric. -/
lemma char_list_lt_asymm (l₁ : List Char) :
    ∀ l₂, char_list_lt l₁ l₂ = true → char_list_lt l₂ l₁ = false := by
  induction l₁ with
  | nil =>
    intro l₂ h
    cases l₂ with
    | nil => simp [char_list_lt] at h
    | cons b bs => rfl
  | cons a as ih =>
    intro l₂ h
    cases l₂ with
    | nil => simp [char_list_lt] at h
    | cons b bs =>
      unfold char_list_lt at h ⊢
      by_cases hab : a < b
      · rw [if_neg (lt_asymm hab), if_pos hab]
      · rw [if_neg hab] at h
        by_cases hba : b < a
        · rw [if_pos hba] at h
          exact absurd h (by simp)
        · rw [if_neg hba] at h
          rw [if_neg hba, if_neg hab]
          exact ih bs h

/-- If neither list is below the other, they are equal. -/
lemma char_list_lt_eq (l₁ : List Char) :
    ∀ l₂, char_list_lt l₁ l₂ = false → char_list_lt l₂ l₁ = false → l₁ = l₂ := by
  induction l₁ with
  | nil =>
    intro l₂ h₁ _
    cases l₂ with
    | nil => rfl
    | cons b bs => simp [char_list_lt] at h₁
  | cons a as ih =>
    intro l₂ h₁ h₂
    cases l₂ with
    | nil => simp [char_list_lt] at h₂
    | cons b bs =>
      unfold char_list_lt at h₁ h₂
      by_cases hab : a < b
      · rw [if_pos hab] at h₁
        exact absurd h₁ (by simp)
      · by_cases hba : b < a
        · rw [if_pos hba] at h₂
          exact absurd h₂ (by simp)
        · rw [if_neg hab, if_neg hba] at h₁
          rw [if_neg hba, if_neg hab] at h₂
          have hc : a = b := le_antisymm (not_lt.mp hba) (not_lt.mp hab)
          rw [hc, ih bs h₁ h₂]

/-- Sorting a two-element pair is order independent, mirroring the
symmetric lookup of main.py line 365. -/
lemma sorted_pair_comm (x y : String) : sorted_pair x y = sorted_pair y x := by
  unfold sorted_pair py_lt
  by_cases h₁ : char_list_lt y.data x.data = true
  · rw [if_pos h₁, if_neg (by rw [char_list_lt_asymm y.data x.data h₁]; simp)]
  · have h₁' : char_list_lt y.data x.data = false := by
      revert h₁; cases char_list_lt y.data x.data <;> simp
    by_cases h₂ : char_list_lt x.data y.data = true
    · rw [if_pos h₂, if_neg (by rw [h₁']; simp)]
    · have h₂' : char_list_lt x.data y.data = false := by
        revert h₂; cases char_list_lt x.data y.data <;> simp
      have hxy : x = y := str_data_eq (char_list_lt_eq x.data y.data h₂' h₁')
      rw [hxy]

/-- A successful association-list lookup returns a stored value. -/
lemma mem_of_lookup_eq_some {α β : Type} [BEq α] {l : List (α × β)} {k : α} {v : β}
    (h : List.lookup k l = some v) : ∃ a, (a, v) ∈ l := by
  induction l with
  | nil => simp [List.lookup] at h
  | cons p t ih =>
    obtain ⟨k', v'⟩ := p
    by_cases hbeq : (k == k') = true
    · simp [List.lookup, hbeq] at h
      exact ⟨k', by rw [← h]; exact List.mem_cons_self _ _⟩
    · simp only [List.lookup, Bool.not_eq_true] at hbeq ⊢
      rw [List.lookup, hbeq] at h
      obtain ⟨a, ha⟩ := ih h
      exact ⟨a, List.mem_cons_of_mem _ ha⟩

/-- Every `ISOLATE` entry of the compatibility matrix carries the
infinite sentinel. -/
lemma matrix_isolate_inf {k : String × String} {act : Action} {m : MinDist}
    (h : List.lookup k compatibility_matrix = some (act, m))
    (hact : act = Action.ISOLATE) : m = MinDist.inf := by
  have hall : ∀ p ∈ compatibility_matrix,
      p.2.1 = Action.ISOLATE → p.2.2 = MinDist.inf := by decide
  obtain ⟨a, ha⟩ := mem_of_lookup_eq_some h
  exact hall (a, (act, m)) ha hact

/-- Band classification of the shared segregation block: the result is
`safe` exactly when the distance meets the minimum, `caution` exactly on
the band from 60% of the minimum up to it, and `danger` below that. -/
lemma seg_result_bands (mq d : ℚ) (hm : 0 < mq) :
    ((seg_result mq d).1 = "safe" ↔ mq ≤ d) ∧
    ((seg_result mq d).1 = "caution" ↔ mq * (0.6 : ℚ) ≤ d ∧ d < mq) ∧
    ((seg_result mq d).1 = "danger" ↔ d < mq * (0.6 : ℚ)) := by
  have h06 : mq * (0.6 : ℚ) < mq := by nlinarith
  unfold seg_result
  split_ifs with h₁ h₂
  · refine ⟨⟨fun _ => h₁, fun _ => rfl⟩, ⟨fun h => absurd h (by simp), ?_⟩,
      ⟨fun h => absurd h (by simp), ?_⟩⟩
    · rintro ⟨-, hlt⟩
      exact absurd h₁ (not_le.mpr hlt)
    · intro hlt
      exact absurd h₁ (not_le.mpr (lt_trans hlt h06))
  · refine ⟨⟨fun h => absurd h (by simp), fun h => absurd h h₁⟩,
      ⟨fun _ => ⟨h₂, not_le.mp h₁⟩, fun _ => rfl⟩,
      ⟨fun h => absurd h (by simp), fun hlt => absurd h₂ (not_le.mpr hlt)⟩⟩
  · refine ⟨⟨fun h => absurd h (by simp), fun h => absurd h h₁⟩,
      ⟨fun h => absurd h (by simp), ?_⟩, ⟨fun _ => not_le.mp h₂, fun _ => rfl⟩⟩
    rintro ⟨h06le, -⟩
    exact absurd h06le h₂

/-- Shape of the segregation block's result: never isolated, finite
minimum equal to the requested one, status among the three bands. -/
lemma seg_result_shape (mq d : ℚ) :
    (seg_result mq d).2.1 = false ∧ (seg_result mq d).2.2 = MinDist.fin mq ∧
    ((seg_result mq d).1 = "safe" ∨ (seg_result mq d).1 = "caution" ∨
      (seg_result mq d).1 = "danger") := by
  unfold seg_result
  split_ifs with h₁ h₂
  · exact ⟨rfl, rfl, Or.inl rfl⟩
  · exact ⟨rfl, rfl, Or.inr (Or.inl rfl)⟩
  · exact ⟨rfl, rfl, Or.inr (Or.inr rfl)⟩

/-- C1: for every table pair whose action requires a finite minimum
distance m (`SEGREGATE_3M` with m = 3, `SEGREGATE_5M` with m = 5, and a
`MAY_NOT_COMPATIBLE` pair of two different class codes with m = 3) and
every declared distance d, the engine returns `safe` iff d ≥ m,
`caution` iff 0.6·m ≤ d < m and `danger` iff d < 0.6·m; the 60% factor
is the fixed literal `0.6` of the function body, not a parameter. -/
theorem segregation_band_classification (a b : String) (d : ℚ) :
    (∀ m, List.lookup (sorted_pair (toClassCode a) (toClassCode b)) compatibility_matrix
        = some (Action.SEGREGATE_3M, m) →
      (((calculate_hazard_status a b d).1 = "safe" ↔ (3 : ℚ) ≤ d) ∧
       ((calculate_hazard_status a b d).1 = "caution" ↔ (3 : ℚ) * (0.6 : ℚ) ≤ d ∧ d < 3) ∧
       ((calculate_hazard_status a b d).1 = "danger" ↔ d < (3 : ℚ) * (0.6 : ℚ)))) ∧
    (∀ m, List.lookup (sorted_pair (toClassCode a) (toClassCode b)) compatibility_matrix
        = some (Action.SEGREGATE_5M, m) →
      (((calculate_hazard_status a b d).1 = "safe" ↔ (5 : ℚ) ≤ d) ∧
       ((calculate_hazard_status a b d).1 = "caution" ↔ (5 : ℚ) * (0.6 : ℚ) ≤ d ∧ d < 5) ∧
       ((calculate_hazard_status a b d).1 = "danger" ↔ d < (5 : ℚ) * (0.6 : ℚ)))) ∧
    (∀ m, List.lookup (sorted_pair (toClassCode a) (toClassCode b)) compatibility_matrix
        = some (Action.MAY_NOT_COMPATIBLE, m) → toClassCode a ≠ toClassCode b →
      (((calculate_hazard_status a b d).1 = "safe" ↔ (3 : ℚ) ≤ d) ∧
       ((calculate_hazard_status a b d).1 = "caution" ↔ (3 : ℚ) * (0.6 : ℚ) ≤ d ∧ d < 3) ∧
       ((calculate_hazard_status a b d).1 = "danger" ↔ d < (3 : ℚ) * (0.6 : ℚ)))) := by
  refine ⟨fun m hm => ?_, fun m hm => ?_, fun m hm hne => ?_⟩
  · have he : matrix_entry (sorted_pair (toClassCode a) (toClassCode b))
        = (Action.SEGREGATE_3M, m) := by unfold matrix_entry; rw [hm]; rfl
    have hc : calculate_hazard_status a b d = seg_result 3 d := by
      unfold calculate_hazard_status
      rw [he]
    rw [hc]
    exact seg_result_bands 3 d (by norm_num)
  · have he : matrix_entry (sorted_pair (toClassCode a) (toClassCode b))
        = (Action.SEGREGATE_5M, m) := by unfold matrix_entry; rw [hm]; rfl
    have hc : calculate_hazard_status a b d = seg_result 5 d := by
      unfold calculate_hazard_status
      rw [he]
    rw [hc]
    exact seg_result_bands 5 d (by norm_num)
  · have he : matrix_entry (sorted_pair (toClassCode a) (toClassCode b))
        = (Action.MAY_NOT_COMPATIBLE, m) := by unfold matrix_entry; rw [hm]; rfl
    have hc : calculate_hazard_status a b d = seg_result 3 d := by
      unfold calculate_hazard_status
      rw [he]
      show (if toClassCode a = toClassCode b then ("safe", false, MinDist.fin 0)
            else seg_result 3 d) = seg_result 3 d
      rw [if_neg hne]
    rw [hc]
    exact seg_result_bands 3 d (by norm_num)

/-- C1 witness: the `SEGREGATE_3M` pair 2.1/2.3 gives `safe` at 3.0 m,
`caution` at exactly 1.8 m (60% of 3 m) and `danger` at 1.79 m. -/
theorem segregation_band_classification_witness :
    (calculate_hazard_status "2.1" "2.3" 3).1 = "safe" ∧
    (calculate_hazard_status "2.1" "2.3" (1.8 : ℚ)).1 = "caution" ∧
    (calculate_hazard_status "2.1" "2.3" (1.79 : ℚ)).1 = "danger" :=
  ⟨((segregation_band_classification "2.1" "2.3" 3).1 (MinDist.fin 3) rfl).1.mpr
      (by norm_num),
   ((segregation_band_classification "2.1" "2.3" (1.8 : ℚ)).1 (MinDist.fin 3) rfl).2.1.mpr
      (by norm_num),
   ((segregation_band_classification "2.1" "2.3" (1.79 : ℚ)).1 (MinDist.fin 3) rfl).2.2.mpr
      (by norm_num)⟩

/-- C2: every `ISOLATE` table pair yields `danger` with the isolation
flag set and the unbounded sentinel for any finite distance d ≥ 0, and
every persistence/API boundary (submission insert, preview response,
container listing) represents that minimum as null/absent, never as a
numeric infinity. -/
theorem isolate_always_danger_and_null_serialized (a b : String) (d : ℚ) (m : MinDist)
    (hm : List.lookup (sorted_pair (toClassCode a) (toClassCode b)) compatibility_matrix
        = some (Action.ISOLATE, m))
    (hd : 0 ≤ d) :
    calculate_hazard_status a b d = ("danger", true, MinDist.inf) ∧
    min_dist_value (calculate_hazard_status a b d).2.2 = none ∧
    listing_min_dist (some (calculate_hazard_status a b d).2.2) = none := by
  have hinf : m = MinDist.inf := matrix_isolate_inf hm rfl
  subst hinf
  have he : matrix_entry (sorted_pair (toClassCode a) (toClassCode b))
      = (Action.ISOLATE, MinDist.inf) := by unfold matrix_entry; rw [hm]; rfl
  have hc : calculate_hazard_status a b d = ("danger", true, MinDist.inf) := by
    unfold calculate_hazard_status
    rw [he]
  rw [hc]
  exact ⟨rfl, rfl, rfl⟩

/-- C2 witness: classes 2.1 and 5.2 at 2 m are isolated, in danger, and
serialize their minimum distance as null. -/
theorem isolate_always_danger_witness :
    (0 : ℚ) ≤ 2 ∧
    calculate_hazard_status "2.1" "5.2" 2 = ("danger", true, MinDist.inf) ∧
    min_dist_value (calculate_hazard_status "2.1" "5.2" 2).2.2 = none :=
  ⟨by norm_num,
   (isolate_always_danger_and_null_serialized "2.1" "5.2" 2 MinDist.inf rfl (by norm_num)).1,
   (isolate_always_danger_and_null_serialized "2.1" "5.2" 2 MinDist.inf rfl (by norm_num)).2.1⟩

/-- C3: the engine is symmetric in its two class arguments for all
strings and all distances, because the pair is sorted before the single
table lookup. -/
theorem calculate_hazard_status_symm (a b : String) (d : ℚ) :
    calculate_hazard_status a b d = calculate_hazard_status b a d := by
  unfold calculate_hazard_status
  rw [sorted_pair_comm (toClassCode a) (toClassCode b)]
  rcases hm : matrix_entry (sorted_pair (toClassCode b) (toClassCode a)) with ⟨act, m⟩
  cases act
  case OK_TOGETHER => rfl
  case SEGREGATE_3M => rfl
  case SEGREGATE_5M => rfl
  case ISOLATE => rfl
  case MAY_NOT_COMPATIBLE =>
    show (if toClassCode a = toClassCode b then ("safe", false, MinDist.fin 0)
          else seg_result 3 d)
        = (if toClassCode b = toClassCode a then ("safe", false, MinDist.fin 0)
          else seg_result 3 d)
    by_cases h : toClassCode a = toClassCode b
    · rw [h]
    · rw [if_neg h, if_neg (fun hh => h hh.symm)]

/-- C7 counterexample: an invalid class code such as "9" is not surfaced
as an error — the engine silently applies the `SEGREGATE_3M` default and
returns the same verdict as a genuine 3 m table pair, so the caller
cannot distinguish an unknown class from a known pair. -/
theorem unknown_class_code_silently_defaulted :
    calculate_hazard_status "9" "3" 2 = ("caution", false, MinDist.fin 3) ∧
    calculate_hazard_status "9" "3" 2 = calculate_hazard_status "2.1" "2.3" 2 := by
  have he : matrix_entry (sorted_pair (toClassCode "9") (toClassCode "3"))
      = (Action.SEGREGATE_3M, MinDist.fin 3) := rfl
  have hc : calculate_hazard_status "9" "3" 2 = seg_result 3 2 := by
    unfold calculate_hazard_status
    rw [he]
  have he2 : matrix_entry (sorted_pair (toClassCode "2.1") (toClassCode "2.3"))
      = (Action.SEGREGATE_3M, MinDist.fin 3) := rfl
  have hc2 : calculate_hazard_status "2.1" "2.3" 2 = seg_result 3 2 := by
    unfold calculate_hazard_status
    rw [he2]
  have hseg : seg_result 3 2 = ("caution", false, MinDist.fin 3) := by
    unfold seg_result
    rw [if_neg (by norm_num : ¬((2 : ℚ) ≥ 3)), if_pos (by norm_num : (2 : ℚ) ≥ 3 * (0.6 : ℚ))]
  exact ⟨hc.trans hseg, hc.trans hc2.symm⟩

/-- C7 (amended): any pair without a table entry — including pairs
involving unknown class codes — degrades to the `SEGREGATE_3M` default
(minimum 3 m banding, never isolated) and never raises; the engine does
not error on unknown class codes and cannot distinguish them from an
undefined pair (invalid hazard-category ids are rejected at the API
layer before the engine is called, main.py lines 934-935). -/
theorem unknown_pair_defaults_to_segregate_3m (a b : String) (d : ℚ)
    (hm : List.lookup (sorted_pair (toClassCode a) (toClassCode b)) compatibility_matrix
        = none) :
    (calculate_hazard_status a b d).2.1 = false ∧
    (calculate_hazard_status a b d).2.2 = MinDist.fin 3 ∧
    ((calculate_hazard_status a b d).1 = "safe" ↔ (3 : ℚ) ≤ d) ∧
    ((calculate_hazard_status a b d).1 = "caution" ↔ (3 : ℚ) * (0.6 : ℚ) ≤ d ∧ d < 3) ∧
    ((calculate_hazard_status a b d).1 = "danger" ↔ d < (3 : ℚ) * (0.6 : ℚ)) := by
  have he : matrix_entry (sorted_pair (toClassCode a) (toClassCode b))
      = (Action.SEGREGATE_3M, MinDist.fin 3) := by unfold matrix_entry; rw [hm]; rfl
  have hc : calculate_hazard_status a b d = seg_result 3 d := by
    unfold calculate_hazard_status
    rw [he]
  rw [hc]
  obtain ⟨h₁, h₂, -⟩ := seg_result_shape 3 d
  obtain ⟨b₁, b₂, b₃⟩ := seg_result_bands 3 d (by norm_num)
  exact ⟨h₁, h₂, b₁, b₂, b₃⟩

/-- C7 witness: the unknown pair 7/9 has no table entry and is classified
with the 3 m default, safe at 5 m. -/
theorem unknown_pair_defaults_witness :
    List.lookup (sorted_pair (toClassCode "9") (toClassCode "7")) compatibility_matrix
        = none ∧
    (calculate_hazard_status "9" "7" 5).1 = "safe" :=
  ⟨rfl, (unknown_pair_defaults_to_segregate_3m "9" "7" 5 rfl).2.2.1.mpr (by norm_num)⟩

/-- C8: a `MAY_NOT_COMPATIBLE` table pair yields `safe` with no
isolation for every distance when the two normalized class codes are
identical, and falls back to the 3 m segregation banding when they
differ. -/
theorem may_not_compatible_spec (a b : String) (d : ℚ) (m : MinDist)
    (hm : List.lookup (sorted_pair (toClassCode a) (toClassCode b)) compatibility_matrix
        = some (Action.MAY_NOT_COMPATIBLE, m)) :
    (toClassCode a = toClassCode b →
      calculate_hazard_status a b d = ("safe", false, MinDist.fin 0)) ∧
    (toClassCode a ≠ toClassCode b →
      (calculate_hazard_status a b d).2.1 = false ∧
      (calculate_hazard_status a b d).2.2 = MinDist.fin 3 ∧
      ((calculate_hazard_status a b d).1 = "safe" ↔ (3 : ℚ) ≤ d) ∧
      ((calculate_hazard_status a b d).1 = "caution" ↔ (3 : ℚ) * (0.6 : ℚ) ≤ d ∧ d < 3) ∧
      ((calculate_hazard_status a b d).1 = "danger" ↔ d < (3 : ℚ) * (0.6 : ℚ))) := by
  have he : matrix_entry (sorted_pair (toClassCode a) (toClassCode b))
      = (Action.MAY_NOT_COMPATIBLE, m) := by unfold matrix_entry; rw [hm]; rfl
  constructor
  · intro hsame
    unfold calculate_hazard_status
    rw [he]
    show (if toClassCode a = toClassCode b then ("safe", false, MinDist.fin 0)
          else seg_result 3 d) = ("safe", false, MinDist.fin 0)
    rw [if_pos hsame]
  · intro hne
    have hc : calculate_hazard_status a b d = seg_result 3 d := by
      unfold calculate_hazard_status
      rw [he]
      show (if toClassCode a = toClassCode b then ("safe", false, MinDist.fin 0)
            else seg_result 3 d) = seg_result 3 d
      rw [if_neg hne]
    rw [hc]
    obtain ⟨h₁, h₂, -⟩ := seg_result_shape 3 d
    obtain ⟨b₁, b₂, b₃⟩ := seg_result_bands 3 d (by norm_num)
    exact ⟨h₁, h₂, b₁, b₂, b₃⟩

/-- C8 witness: the identical-class pair 8/8 is `safe` at distance 0,
while the different-class pair 4.1/8 at 2 m falls in the `caution` band
of the 3 m rule. -/
theorem may_not_compatible_witness :
    calculate_hazard_status "8" "8" 0 = ("safe", false, MinDist.fin 0) ∧
    (calculate_hazard_status "4.1" "8" 2).1 = "caution" :=
  ⟨(may_not_compatible_spec "8" "8" 0 (MinDist.fin 3) rfl).1 rfl,
   ((may_not_compatible_spec "4.1" "8" 2 (MinDist.fin 3) rfl).2 (by decide)).2.2.2.1.mpr
      (by norm_num)⟩

/-- C10: the engine is total — for every pair of input strings and every
rational distance (negative and zero included) it returns one of the
three statuses, the isolation flag is set exactly when the minimum is
the infinite sentinel, and otherwise the minimum is 0, 3 or 5 meters. -/
theorem calculate_hazard_status_total_spec (a b : String) (d : ℚ) :
    ((calculate_hazard_status a b d).1 = "safe" ∨
     (calculate_hazard_status a b d).1 = "caution" ∨
     (calculate_hazard_status a b d).1 = "danger") ∧
    ((calculate_hazard_status a b d).2.1 = true ↔
      (calculate_hazard_status a b d).2.2 = MinDist.inf) ∧
    ((calculate_hazard_status a b d).2.1 = false →
      ((calculate_hazard_status a b d).2.2 = MinDist.fin 0 ∨
       (calculate_hazard_status a b d).2.2 = MinDist.fin 3 ∨
       (calculate_hazard_status a b d).2.2 = MinDist.fin 5)) := by
  cases hm : List.lookup (sorted_pair (toClassCode a) (toClassCode b)) compatibility_matrix with
  | none =>
    have he : matrix_entry (sorted_pair (toClassCode a) (toClassCode b))
        = (Action.SEGREGATE_3M, MinDist.fin 3) := by unfold matrix_entry; rw [hm]; rfl
    have hc : calculate_hazard_status a b d = seg_result 3 d := by
      unfold calculate_hazard_status
      rw [he]
    rw [hc]
    obtain ⟨h₁, h₂, h₃⟩ := seg_result_shape 3 d
    refine ⟨h₃, ?_, fun _ => Or.inr (Or.inl h₂)⟩
    rw [h₁, h₂]
    simp
  | some val =>
    obtain ⟨act, m⟩ := val
    have he : matrix_entry (sorted_pair (toClassCode a) (toClassCode b))
        = (act, m) := by unfold matrix_entry; rw [hm]; rfl
    cases act
    case ISOLATE =>
      have hinf : m = MinDist.inf := matrix_isolate_inf hm rfl
      subst hinf
      have hc : calculate_hazard_status a b d = ("danger", true, MinDist.inf) := by
        unfold calculate_hazard_status
        rw [he]
      rw [hc]
      exact ⟨Or.inr (Or.inr rfl), by simp, by simp⟩
    case OK_TOGETHER =>
      have hc : calculate_hazard_status a b d = ("safe", false, MinDist.fin 0) := by
        unfold calculate_hazard_status
        rw [he]
        show (if d ≥ 0 then ("safe", false, MinDist.fin 0)
              else ("safe", false, MinDist.fin 0)) = ("safe", false, MinDist.fin 0)
        rw [ite_self]
      rw [hc]
      exact ⟨Or.inl rfl, by simp, fun _ => Or.inl rfl⟩
    case SEGREGATE_3M =>
      have hc : calculate_hazard_status a b d = seg_result 3 d := by
        unfold calculate_hazard_status
        rw [he]
      rw [hc]
      obtain ⟨h₁, h₂, h₃⟩ := seg_result_shape 3 d
      refine ⟨h₃, ?_, fun _ => Or.inr (Or.inl h₂)⟩
      rw [h₁, h₂]
      simp
    case SEGREGATE_5M =>
      have hc : calculate_hazard_status a b d = seg_result 5 d := by
        unfold calculate_hazard_status
        rw [he]
      rw [hc]
      obtain ⟨h₁, h₂, h₃⟩ := seg_result_shape 5 d
      refine ⟨h₃, ?_, fun _ => Or.inr (Or.inr h₂)⟩
      rw [h₁, h₂]
      simp
    case MAY_NOT_COMPATIBLE =>
      by_cases hsame : toClassCode a = toClassCode b
      · have hc : calculate_hazard_status a b d = ("safe", false, MinDist.fin 0) := by
          unfold calculate_hazard_status
          rw [he]
          show (if toClassCode a = toClassCode b then ("safe", false, MinDist.fin 0)
                else seg_result 3 d) = ("safe", false, MinDist.fin 0)
          rw [if_pos hsame]
        rw [hc]
        exact ⟨Or.inl rfl, by simp, fun _ => Or.inl rfl⟩
      · have hc : calculate_hazard_status a b d = seg_result 3 d := by
          unfold calculate_hazard_status
          rw [he]
          show (if toClassCode a = toClassCode b then ("safe", false, MinDist.fin 0)
                else seg_result 3 d) = seg_result 3 d
          rw [if_neg hsame]
        rw [hc]
        obtain ⟨h₁, h₂, h₃⟩ := seg_result_shape 3 d
        refine ⟨h₃, ?_, fun _ => Or.inr (Or.inl h₂)⟩
        rw [h₁, h₂]
        simp

/-- C10 witness: the isolation flag and sentinel agree on the isolated
pair 2.1/5.2, and the identical-class pair 8/8 at a negative distance
still returns a finite minimum of 0, 3 or 5. -/
theorem calculate_hazard_status_total_witness :
    (calculate_hazard_status "2.1" "5.2" 1).2.2 = MinDist.inf ∧
    ((calculate_hazard_status "8" "8" (-1 : ℚ)).2.2 = MinDist.fin 0 ∨
     (calculate_hazard_status "8" "8" (-1 : ℚ)).2.2 = MinDist.fin 3 ∨
     (calculate_hazard_status "8" "8" (-1 : ℚ)).2.2 = MinDist.fin 5) :=
  ⟨(calculate_hazard_status_total_spec "2.1" "5.2" 1).2.1.mp rfl,
   (calculate_hazard_status_total_spec "8" "8" (-1 : ℚ)).2.2 rfl⟩

/-- C4: a freshly submitted container is always in `pending_review`; an
admin review succeeds exactly when the caller is an admin, the stripped
comment has at least 10 characters and the container is in
`pending_review`, moving it to `pending`; every other attempt (a second
review of a `pending` container included) fails with an error and leaves
the stored container unchanged. -/
theorem submit_and_admin_review_spec
    (dep loc sb cn ct role comment : String) (c : Container) :
    (submit_container dep loc sb cn ct).status = "pending_review" ∧
    ((∃ c', admin_review_container role comment c = Except.ok c') ↔
      (role = "admin" ∧ 10 ≤ (py_strip comment).length ∧ c.status = "pending_review")) ∧
    (∀ c', admin_review_container role comment c = Except.ok c' → c'.status = "pending") ∧
    (∀ e, admin_review_container role comment c = Except.error e →
      apply_result c (admin_review_container role comment c) = c) := by
  refine ⟨rfl, ?_⟩
  unfold admin_review_container apply_result
  by_cases h₁ : role ≠ "admin"
  · rw [if_pos h₁]
    refine ⟨⟨?_, ?_⟩, ?_, ?_⟩
    · rintro ⟨c', hc⟩
      exact absurd hc (by simp)
    · rintro ⟨ha, -, -⟩
      exact absurd ha h₁
    · intro c' hc
      exact absurd hc (by simp)
    · intro e _
      rfl
  · rw [if_neg h₁]
    by_cases h₂ : comment = "" ∨ py_strip comment = ""
    · rw [if_pos h₂]
      refine ⟨⟨?_, ?_⟩, ?_, ?_⟩
      · rintro ⟨c', hc⟩
        exact absurd hc (by simp)
      · rintro ⟨-, hlen, -⟩
        rcases h₂ with h₂ | h₂ <;> rw [h₂] at hlen <;> exact absurd hlen (by decide)
      · intro c' hc
        exact absurd hc (by simp)
      · intro e _
        rfl
    · rw [if_neg h₂]
      by_cases h₃ : (py_strip comment).length < 10
      · rw [if_pos h₃]
        refine ⟨⟨?_, ?_⟩, ?_, ?_⟩
        · rintro ⟨c', hc⟩
          exact absurd hc (by simp)
        · rintro ⟨-, hlen, -⟩
          exact absurd hlen (not_le.mpr h₃)
        · intro c' hc
          exact absurd hc (by simp)
        · intro e _
          rfl
      · rw [if_neg h₃]
        by_cases h₄ : c.status ≠ "pending_review"
        · rw [if_pos h₄]
          refine ⟨⟨?_, ?_⟩, ?_, ?_⟩
          · rintro ⟨c', hc⟩
            exact absurd hc (by simp)
          · rintro ⟨-, -, hst⟩
            exact absurd hst h₄
          · intro c' hc
            exact absurd hc (by simp)
          · intro e _
            rfl
        · rw [if_neg h₄]
          refine ⟨⟨fun _ => ⟨not_not.mp h₁, not_lt.mp h₃, not_not.mp h₄⟩,
            fun _ => ⟨_, rfl⟩⟩, ?_, ?_⟩
          · intro c' hc
            injection hc with h
            rw [← h]
          · intro e he
            exact absurd he (by simp)

/-- C4 witness: an admin review with a valid comment on a fresh
container succeeds and moves it to `pending`. -/
theorem submit_and_admin_review_witness :
    admin_review_container "admin" "hazard details verified" sample_pending_review
        = Except.ok sample_reviewed ∧
    sample_reviewed.status = "pending" :=
  ⟨rfl,
   (submit_and_admin_review_spec "d" "l" "s" "c" "t" "admin" "hazard details verified"
      sample_pending_review).2.2.1 sample_reviewed rfl⟩

/-- C5 (code bug): the HOD decision endpoint never validates that the
requested status is `approved` or `rejected` — although the request
model documents the field as such (main.py line 179), the UPDATE at
lines 1673-1677 stores it verbatim, so an accepted request can move a
container to an arbitrary state such as `shredded`. -/
theorem approve_container_accepts_arbitrary_status :
    approve_container "hod" "shredded" "meets all safety criteria" sample_pending
      = Except.ok { sample_pending with
                    status := "shredded"
                    approval_comment := some "meets all safety criteria" } := rfl

/-- C6: an HOD decision on a deletion request not in `admin_reviewed`
fails; an approved decision after admin review removes the container and
all its child rows; a rejected decision leaves the container record
fully intact. -/
theorem hod_final_decision_spec (role decision comment : String) (w : DeletionWorld) :
    (w.req_status ≠ "admin_reviewed" →
      ∃ e, hod_final_decision role decision comment w = Except.error e) ∧
    (∀ w', hod_final_decision role decision comment w = Except.ok w' →
      w'.req_status = decision ∧
      (decision = "approved" → w'.record = none) ∧
      (decision = "rejected" → w'.record = w.record)) := by
  unfold hod_final_decision
  by_cases h₁ : role ≠ "hod"
  · rw [if_pos h₁]
    exact ⟨fun _ => ⟨_, rfl⟩, fun w' hw => absurd hw (by simp)⟩
  · rw [if_neg h₁]
    by_cases h₂ : comment = "" ∨ py_strip comment = ""
    · rw [if_pos h₂]
      exact ⟨fun _ => ⟨_, rfl⟩, fun w' hw => absurd hw (by simp)⟩
    · rw [if_neg h₂]
      by_cases h₃ : (py_strip comment).length < 10
      · rw [if_pos h₃]
        exact ⟨fun _ => ⟨_, rfl⟩, fun w' hw => absurd hw (by simp)⟩
      · rw [if_neg h₃]
        by_cases h₄ : decision ∉ (["approved", "rejected"] : List String)
        · rw [if_pos h₄]
          exact ⟨fun _ => ⟨_, rfl⟩, fun w' hw => absurd hw (by simp)⟩
        · rw [if_neg h₄]
          by_cases h₅ : w.req_status ≠ "admin_reviewed"
          · rw [if_pos h₅]
            exact ⟨fun _ => ⟨_, rfl⟩, fun w' hw => absurd hw (by simp)⟩
          · rw [if_neg h₅]
            by_cases h₆ : ¬ w.admin_reviewed
            · rw [if_pos h₆]
              exact ⟨fun _ => ⟨_, rfl⟩, fun w' hw => absurd hw (by simp)⟩
            · rw [if_neg h₆]
              by_cases h₇ : decision = "approved"
              · rw [if_pos h₇]
                refine ⟨fun hne => absurd hne h₅, ?_⟩
                intro w' hw
                injection hw with h
                refine ⟨by rw [← h]; rfl, fun _ => by rw [← h]; rfl, fun hrej => ?_⟩
                exact absurd (h₇.symm.trans hrej) (by decide)
              · rw [if_neg h₇]
                refine ⟨fun hne => absurd hne h₅, ?_⟩
                intro w' hw
                injection hw with h
                exact ⟨by rw [← h], fun happ => absurd happ h₇, fun _ => by rw [← h]⟩

/-- C6 witness: a decision before admin review errors, while an approved
decision after admin review deletes the container record with its child
rows. -/
theorem hod_final_decision_witness :
    sample_deletion_pending.req_status ≠ "admin_reviewed" ∧
    (∃ e, hod_final_decision "hod" "approved" "duplicate container entry"
        sample_deletion_pending = Except.error e) ∧
    (hod_final_decision "hod" "approved" "duplicate container entry" sample_deletion_world
        = Except.ok { sample_deletion_world with
                      req_status := "approved"
                      record := none }) ∧
    ({ sample_deletion_world with
       req_status := "approved"
       record := none } : DeletionWorld).record = none :=
  ⟨by decide,
   (hod_final_decision_spec "hod" "approved" "duplicate container entry"
      sample_deletion_pending).1 (by decide),
   rfl,
   ((hod_final_decision_spec "hod" "approved" "duplicate container entry"
      sample_deletion_world).2 _ rfl).2.1 rfl⟩

/-- C9 counterexample: a rework request with an empty reason is
accepted — the endpoint never validates the reason, contradicting the
claim that every rework reason must be non-empty with a minimum
length. -/
theorem request_rework_accepts_empty_reason :
    request_rework "admin" "" sample_pending_review
      = Except.ok { sample_pending_review with
                    status := "rework_requested"
                    rework_reason := some ""
                    rework_count := 1 } := rfl

/-- C9 (amended): a rework request is accepted exactly for an admin on a
`pending_review` container or an hod on a `pending_review` or `pending`
container; on success the container moves to `rework_requested` with the
stripped reason stored and the rework count incremented. The rework
reason itself is not validated: empty or short reasons are accepted,
unlike the review and approval comments. -/
theorem request_rework_spec (role reason : String) (c : Container) :
    ((∃ c', request_rework role reason c = Except.ok c') ↔
      ((role = "admin" ∧ c.status = "pending_review") ∨
       (role = "hod" ∧ (c.status = "pending_review" ∨ c.status = "pending")))) ∧
    (∀ c', request_rework role reason c = Except.ok c' →
      c'.status = "rework_requested" ∧ c'.rework_reason = some (py_strip reason) ∧
      c'.rework_count = c.rework_count + 1) := by
  unfold request_rework
  by_cases h₁ : role ∉ (["admin", "hod"] : List String)
  · rw [if_pos h₁]
    refine ⟨⟨?_, ?_⟩, ?_⟩
    · rintro ⟨c', hc⟩
      exact absurd hc (by simp)
    · rintro (⟨ha, -⟩ | ⟨hh, -⟩)
      · exact absurd (by rw [ha]; simp) h₁
      · exact absurd (by rw [hh]; simp) h₁
    · intro c' hc
      exact absurd hc (by simp)
  · rw [if_neg h₁]
    by_cases h₂ : role = "admin" ∧ c.status ≠ "pending_review"
    · rw [if_pos h₂]
      refine ⟨⟨?_, ?_⟩, ?_⟩
      · rintro ⟨c', hc⟩
        exact absurd hc (by simp)
      · rintro (⟨-, hst⟩ | ⟨hh, -⟩)
        · exact absurd hst h₂.2
        · exact absurd (h₂.1.symm.trans hh) (by decide)
      · intro c' hc
        exact absurd hc (by simp)
    · rw [if_neg h₂]
      by_cases h₃ : role = "hod" ∧ c.status ∉ (["pending_review", "pending"] : List String)
      · rw [if_pos h₃]
        refine ⟨⟨?_, ?_⟩, ?_⟩
        · rintro ⟨c', hc⟩
          exact absurd hc (by simp)
        · rintro (⟨ha, -⟩ | ⟨-, hst⟩)
          · exact absurd (h₃.1.symm.trans ha) (by decide)
          · refine absurd ?_ h₃.2
            rcases hst with h | h <;> rw [h] <;> simp
        · intro c' hc
          exact absurd hc (by simp)
      · rw [if_neg h₃]
        refine ⟨⟨fun _ => ?_, fun _ => ⟨_, rfl⟩⟩, ?_⟩
        · have hmem : role ∈ (["admin", "hod"] : List String) := not_not.mp h₁
          simp only [List.mem_cons, List.not_mem_nil, or_false] at hmem
          rcases hmem with ha | hh
          · left
            refine ⟨ha, ?_⟩
            by_contra hst
            exact h₂ ⟨ha, hst⟩
          · right
            refine ⟨hh, ?_⟩
            by_contra hst
            refine h₃ ⟨hh, ?_⟩
            simpa using hst
        · intro c' hc
          injection hc with h
          exact ⟨by rw [← h], by rw [← h], by rw [← h]⟩

/-- C9 witness: an hod rework request on a `pending` container succeeds
and moves it to `rework_requested`. -/
theorem request_rework_spec_witness :
    request_rework "hod" "please re-measure the distances" sample_pending
        = Except.ok { sample_pending with
                      status := "rework_requested"
                      rework_reason := some "please re-measure the distances"
                      rework_count := 1 } ∧
    ({ sample_pending with
       status := "rework_requested"
       rework_reason := some "please re-measure the distances"
       rework_count := 1 } : Container).status = "rework_requested" :=
  ⟨rfl,
   ((request_rework_spec "hod" "please re-measure the distances" sample_pending).2 _
      rfl).1⟩

end ChemSafety
